import Mathlib

/-!
Shallow embedding of the AIshooting repository (src/ai_shooting/ai.py and
src/ai_shooting/entities.py) and proofs about it.

Conventions of the embedding:
* Python floats are modelled as rationals (`ℚ`); all arithmetic appearing in
  the modelled code (addition, subtraction, multiplication, `max`/`min`
  clamping, comparisons) is exact on the values the program uses.
* Python's builtin `max`/`min` on two numbers are modelled by the if-based
  functions `pymax`/`pymin` below (definitionally equal to `max`/`min`),
  so that concrete states can be evaluated by `decide`.
* The two sources of randomness inside `AIController.think`
  (`self._rng.uniform(0, total)` for the weighted choice and
  `self._rng.uniform(-0.08, 0.08)` for the delay jitter) are passed in as
  explicit arguments `draw` and `jitter`; theorems quantify over them.
* Bullet positions/velocities are real-valued because `Player.use_special`
  builds velocities with `math.sin`/`math.cos`; all other state is rational.
* `pygame.Rect`-based rendering/collision helpers (`to_rect`, `rect`) and
  `Enemy.update` (which needs `Vector2.normalize`, i.e. a square root, and is
  used by no claim) are not embedded; no claim refers to them.
-/

attribute [local semireducible] Rat.add Rat.sub Rat.mul Rat.ofScientific

set_option maxRecDepth 40000

namespace AIShooting

/-- Python's two-argument `max` on numbers, written with an `if` so that the
kernel can evaluate it on concrete rationals. -/
def pymax (a b : ℚ) : ℚ := if a ≤ b then b else a

/-- Python's two-argument `min` on numbers, written with an `if` so that the
kernel can evaluate it on concrete rationals. -/
def pymin (a b : ℚ) : ℚ := if a ≤ b then a else b

theorem pymax_eq_max (a b : ℚ) : pymax a b = max a b := by
  unfold pymax
  rcases le_total a b with h | h
  · rw [if_pos h, max_eq_right h]
  · rcases eq_or_lt_of_le h with rfl | hlt
    · simp
    · rw [if_neg (not_le.mpr hlt), max_eq_left h]

theorem pymin_eq_min (a b : ℚ) : pymin a b = min a b := by
  unfold pymin
  rcases le_total a b with h | h
  · rw [if_pos h, min_eq_left h]
  · rcases eq_or_lt_of_le h with rfl | hlt
    · simp
    · rw [if_neg (not_le.mpr hlt), min_eq_right h]

/-- Python's `str.lower`, modelled character-by-character (the instruction
vocabulary is ASCII, where `Char.toLower` agrees with Python). Defined on the
underlying character list so the kernel can evaluate it. -/
def str_lower (s : String) : String := String.mk (s.data.map Char.toLower)

/- ===================== ai.py ===================== -/

/-- ai.py: `class Personality(Enum)`. -/
inductive Personality where
  | AGGRESSIVE
  | PRUDENT
  | SKITTISH
deriving DecidableEq

/-- ai.py: `class Action(Enum)`; the constructor order is the Python
declaration order, which is also the iteration order of every dict keyed by
all actions in the module. -/
inductive Action where
  | NORMAL_SHOT
  | STRONG_ATTACK
  | APPROACH
  | KEEP_DISTANCE
  | EVADE
  | STEP
  | SPECIAL
deriving DecidableEq

/-- The iteration order of `Action` (Python enum order), which is also the
key order of the `BASE_WEIGHTS` dict and of the `weights` dict built from it
in `AIController.think`. -/
def action_order : List Action :=
  [Action.NORMAL_SHOT, Action.STRONG_ATTACK, Action.APPROACH,
   Action.KEEP_DISTANCE, Action.EVADE, Action.STEP, Action.SPECIAL]

/-- ai.py: the `BASE_WEIGHTS` dict, as a total map. -/
def BASE_WEIGHTS : Action → ℚ
  | Action.NORMAL_SHOT => 25
  | Action.STRONG_ATTACK => 10
  | Action.APPROACH => 20
  | Action.KEEP_DISTANCE => 20
  | Action.EVADE => 15
  | Action.STEP => 5
  | Action.SPECIAL => 5

/-- ai.py: `class OrderBias` — a mapping with an entry for every action
(`__post_init__` fills every missing key with 0.0, so the map is total). -/
structure OrderBias where
  values : Action → ℚ

/-- ai.py: `OrderBias()` — the default bias, 0 for every action. -/
def OrderBias.default : OrderBias := ⟨fun _ => 0⟩

/-- ai.py: `OrderBias.set_bias`. -/
def OrderBias.set_bias (b : OrderBias) (action : Action) (value : ℚ) : OrderBias :=
  ⟨fun a => if a = action then value else b.values a⟩

/-- ai.py: `@dataclass class AIContext`. -/
structure AIContext where
  threat_level : ℚ
  target_score : ℚ
  distance : ℚ
  energy : ℚ
  heat : ℚ
  special : ℚ
  hp_ratio : ℚ
  sync : ℚ
  cooldown_ready : Bool

/-- ai.py: `@dataclass class AIChoice`. -/
structure AIChoice where
  action : Action
  delay : ℚ

/-- ai.py: `def clamp(value, minimum, maximum): return max(minimum, min(value, maximum))`. -/
def clamp (value minimum maximum : ℚ) : ℚ := pymax minimum (pymin value maximum)

/-- ai.py: the state of `class AIController` that `think` reads
(`self._rng` is replaced by explicit random-outcome arguments to `think`). -/
structure AIController where
  personality : Personality
  order_bias : OrderBias
  base_delay : ℚ

/-- ai.py: `AIController.__init__` default configuration
(personality AGGRESSIVE, empty bias, base_delay 0.35). -/
def AIController.init : AIController :=
  { personality := Personality.AGGRESSIVE
    order_bias := OrderBias.default
    base_delay := 0.35 }

/-- Assignment `weights[action] = value` to one key of the weights dict. -/
def upd (w : Action → ℚ) (action : Action) (value : ℚ) : Action → ℚ :=
  fun a => if a = action then value else w a

/-- ai.py: the weight table computed inside `AIController.think` (lines
101-144), factored out of `think`: base weights, then situational
adjustments, then the order bias, then the personality profile, then the
step-cooldown veto, then the clamp of negatives to zero. -/
def AIController.think_weights (c : AIController) (ctx : AIContext) : Action → ℚ :=
  let w := BASE_WEIGHTS
  let w :=
    if ctx.threat_level > 0.7 then
      let w := upd w Action.EVADE (w Action.EVADE + 40)
      upd w Action.STEP (w Action.STEP + 15)
    else w
  let w :=
    if ctx.energy < 20 then
      upd w Action.STRONG_ATTACK (w Action.STRONG_ATTACK - 30)
    else w
  let w :=
    if ctx.heat > 70 then
      let w := upd w Action.NORMAL_SHOT (w Action.NORMAL_SHOT - 20)
      let w := upd w Action.STRONG_ATTACK (w Action.STRONG_ATTACK - 20)
      upd w Action.EVADE (w Action.EVADE + 20)
    else w
  let w :=
    if ctx.hp_ratio < 0.3 then
      upd w Action.KEEP_DISTANCE (w Action.KEEP_DISTANCE + 20)
    else w
  let w :=
    if ctx.special ≥ 100 then
      upd w Action.SPECIAL (w Action.SPECIAL + 15)
    else w
  let w := fun a => w a + c.order_bias.values a
  let w :=
    match c.personality with
    | Personality.AGGRESSIVE =>
        let w := upd w Action.NORMAL_SHOT (w Action.NORMAL_SHOT * 1.3)
        let w := upd w Action.STRONG_ATTACK (w Action.STRONG_ATTACK * 1.3)
        let w := upd w Action.EVADE (w Action.EVADE * 0.7)
        upd w Action.KEEP_DISTANCE (w Action.KEEP_DISTANCE * 0.8)
    | Personality.PRUDENT =>
        let w := upd w Action.EVADE (w Action.EVADE * 1.3)
        let w := upd w Action.KEEP_DISTANCE (w Action.KEEP_DISTANCE * 1.1)
        let w := upd w Action.NORMAL_SHOT (w Action.NORMAL_SHOT * 0.8)
        upd w Action.STRONG_ATTACK (w Action.STRONG_ATTACK * 0.7)
    | Personality.SKITTISH =>
        let w := upd w Action.KEEP_DISTANCE (w Action.KEEP_DISTANCE + 20)
        let w := upd w Action.SPECIAL (w Action.SPECIAL - 15)
        let w := upd w Action.APPROACH (w Action.APPROACH * 0.7)
        upd w Action.NORMAL_SHOT (w Action.NORMAL_SHOT * 0.8)
  let w := if ctx.cooldown_ready then w else upd w Action.STEP 0
  fun a => pymax 0 (w a)

/-- ai.py: the accumulation loop of `AIController._weighted_choice`
(`for action, weight in weights.items(): cumulative += weight; if target <= cumulative: return action`,
falling through to `KEEP_DISTANCE`). -/
def weighted_choice_go (weights : Action → ℚ) (target : ℚ) : ℚ → List Action → Action
  | _, [] => Action.KEEP_DISTANCE
  | cumulative, a :: rest =>
      if target ≤ cumulative + weights a then a
      else weighted_choice_go weights target (cumulative + weights a) rest

/-- ai.py: `AIController._weighted_choice`; `target` is the outcome of
`self._rng.uniform(0, total)`. -/
def weighted_choice (weights : Action → ℚ) (target : ℚ) : Action :=
  let total := (action_order.map weights).sum
  if total ≤ 0 then Action.KEEP_DISTANCE
  else weighted_choice_go weights target 0 action_order

/-- ai.py: `AIController.think`; `draw` is the outcome of the rng draw used
by `_weighted_choice` and `jitter` the outcome of `uniform(-0.08, 0.08)`. -/
def AIController.think (c : AIController) (ctx : AIContext) (draw jitter : ℚ) : AIChoice :=
  let weights := c.think_weights ctx
  let choice := weighted_choice weights draw
  let delay := c.base_delay * (1 - clamp ctx.sync 0 0.9)
  let delay := delay + jitter
  let delay := pymax 0.05 delay
  { action := choice, delay := delay }

/-- The fixed instruction vocabulary accepted by `bias_from_instruction`
(section 6 of the spec). -/
def instruction_vocabulary : List String :=
  ["balanced", "aggressive", "defensive", "focus", "special"]

/-- ai.py: `bias_from_instruction`; Python's `raise ValueError(...)` is
modelled as `Except.error` with the message text. -/
def bias_from_instruction (name : String) : Except String OrderBias :=
  let name := str_lower name
  if name = "aggressive" then
    Except.ok (((OrderBias.default.set_bias Action.NORMAL_SHOT 25).set_bias
      Action.STRONG_ATTACK 35).set_bias Action.APPROACH 15)
  else if name = "defensive" then
    Except.ok (((OrderBias.default.set_bias Action.EVADE 30).set_bias
      Action.KEEP_DISTANCE 25).set_bias Action.STEP 20)
  else if name = "focus" then
    Except.ok ((OrderBias.default.set_bias Action.NORMAL_SHOT 10).set_bias
      Action.STRONG_ATTACK 10)
  else if name = "special" then
    Except.ok (OrderBias.default.set_bias Action.SPECIAL 45)
  else if name = "balanced" then
    Except.ok OrderBias.default
  else
    Except.error ("Unknown instruction " ++ name)

/-- Whether an instruction lookup succeeded (did not raise). -/
def is_ok (r : Except String OrderBias) : Bool :=
  match r with
  | Except.ok _ => true
  | Except.error _ => false

/-- The bias table returned by a successful instruction lookup
(0 everywhere for a failed one; only used on successful lookups). -/
def bias_values (r : Except String OrderBias) : Action → ℚ :=
  match r with
  | Except.ok b => b.values
  | Except.error _ => fun _ => 0

/- ===================== entities.py ===================== -/

/-- entities.py: `@dataclass class Bullet`. Positions and velocities are
real-valued because `Player.use_special` builds them from `math.sin` and
`math.cos`; damage is rational and radius an integer as in the source. -/
structure Bullet where
  position : ℝ × ℝ
  velocity : ℝ × ℝ
  damage : ℚ
  radius : ℤ
  friendly : Bool

/-- entities.py: `Bullet.update` (`self.position += self.velocity * dt`). -/
noncomputable def Bullet.update (b : Bullet) (dt : ℝ) : Bullet :=
  { b with position := (b.position.1 + b.velocity.1 * dt, b.position.2 + b.velocity.2 * dt) }

/-- entities.py: `@dataclass class PlayerStats`. -/
structure PlayerStats where
  hp : ℚ
  max_hp : ℚ
  energy : ℚ
  max_energy : ℚ
  heat : ℚ
  max_heat : ℚ
  special : ℚ
  max_special : ℚ

/-- entities.py: the `PlayerStats` dataclass defaults
(hp 100/100, energy 100/100, heat 0/100, special 0/100). -/
def PlayerStats.init : PlayerStats :=
  { hp := 100, max_hp := 100, energy := 100, max_energy := 100,
    heat := 0, max_heat := 100, special := 0, max_special := 100 }

/-- entities.py: `class Player` (its `__init__` fields). -/
structure Player where
  position : ℚ × ℚ
  velocity : ℚ × ℚ
  speed : ℚ
  stats : PlayerStats
  radius : ℤ
  shot_timer : ℚ
  strong_timer : ℚ
  step_cooldown : ℚ
  invincible : ℚ

/-- entities.py: `Player.__init__(position)`. -/
def Player.init (position : ℚ × ℚ) : Player :=
  { position := position, velocity := (0, 0), speed := 170,
    stats := PlayerStats.init, radius := 18,
    shot_timer := 0, strong_timer := 0, step_cooldown := 0, invincible := 0 }

/-- entities.py: `Player.update(dt)` — move, clamp position to the arena,
regenerate energy/special, decay heat, tick the four timers. -/
def Player.update (p : Player) (dt : ℚ) : Player :=
  let position := (p.position.1 + p.velocity.1 * dt, p.position.2 + p.velocity.2 * dt)
  let position := (pymax 30 (pymin position.1 610), pymax 40 (pymin position.2 440))
  let stats :=
    { p.stats with
        energy := pymin (p.stats.energy + 20 * dt) p.stats.max_energy
        heat := pymax 0 (p.stats.heat - 15 * dt)
        special := pymin (p.stats.special + 5 * dt) p.stats.max_special }
  { p with
      position := position
      stats := stats
      shot_timer := if p.shot_timer > 0 then p.shot_timer - dt else p.shot_timer
      strong_timer := if p.strong_timer > 0 then p.strong_timer - dt else p.strong_timer
      step_cooldown := if p.step_cooldown > 0 then p.step_cooldown - dt else p.step_cooldown
      invincible := if p.invincible > 0 then p.invincible - dt else p.invincible }

/-- entities.py: `Player.take_damage(dmg)` — a no-op while invincible,
otherwise hp is reduced and floored at 0. -/
def Player.take_damage (p : Player) (dmg : ℚ) : Player :=
  if p.invincible > 0 then p
  else { p with stats := { p.stats with hp := pymax 0 (p.stats.hp - dmg) } }

/-- entities.py: `Player.can_shoot`. -/
def Player.can_shoot (p : Player) : Bool := decide (p.shot_timer ≤ 0)

/-- entities.py: `Player.can_strong` (`self.strong_timer <= 0 and self.stats.energy >= 35`). -/
def Player.can_strong (p : Player) : Bool :=
  decide (p.strong_timer ≤ 0 ∧ p.stats.energy ≥ 35)

/-- entities.py: `Player.can_step`. -/
def Player.can_step (p : Player) : Bool := decide (p.step_cooldown ≤ 0)

/-- entities.py: `Player.shoot` — returns the emitted bullets and the updated
player (the Python method mutates `self` and returns the bullet list). -/
noncomputable def Player.shoot (p : Player) : List Bullet × Player :=
  if ¬ p.can_shoot then ([], p)
  else
    let stats :=
      { p.stats with
          heat := pymin (p.stats.heat + 8) p.stats.max_heat
          energy := pymin (p.stats.energy + 5) p.stats.max_energy }
    let bullet : Bullet :=
      { position := ((p.position.1 : ℝ), (p.position.2 : ℝ)),
        velocity := (0, -420), damage := 6, radius := 4, friendly := true }
    ([bullet], { p with shot_timer := 0.18, stats := stats })

/-- entities.py: `Player.strong_attack` — requires `can_strong`; emits a
3-bullet spread at offsets -25, 0, 25 and pays 35 energy / +25 heat. -/
noncomputable def Player.strong_attack (p : Player) : List Bullet × Player :=
  if ¬ p.can_strong then ([], p)
  else
    let stats :=
      { p.stats with
          energy := p.stats.energy - 35
          heat := pymin (p.stats.heat + 25) p.stats.max_heat }
    let bullets := [(-25 : ℚ), 0, 25].map (fun offset =>
      { position := (((p.position.1 + offset : ℚ) : ℝ), ((p.position.2 - 5 : ℚ) : ℝ))
        velocity := (0, -520), damage := 22, radius := 6, friendly := true : Bullet })
    (bullets, { p with strong_timer := 0.9, stats := stats })

/-- entities.py: `Player.step(direction)` — teleport by 120 units, impart
220 units/s velocity, start the 1.6 s cooldown and 0.35 s invincibility. -/
def Player.step (p : Player) (direction : ℚ × ℚ) : Player :=
  if ¬ p.can_step then p
  else
    { p with
        position := (p.position.1 + direction.1 * 120, p.position.2 + direction.2 * 120)
        velocity := (direction.1 * 220, direction.2 * 220)
        step_cooldown := 1.6
        invincible := 0.35 }

/-- Python's `range(start, stop, step)` as a list, for a positive step
(the only form the source uses: `range(-45, 50, 15)`). -/
def pyRange (start stop incr : ℤ) : List ℤ :=
  if 0 < incr then
    (List.range ((stop - start + incr - 1).toNat / incr.toNat)).map
      (fun i => start + incr * (i : ℤ))
  else []

/-- entities.py: the bullet velocity built in `Player.use_special` for a fan
angle in degrees: `Vec(math.sin(rad) * 420, -math.cos(rad) * 420)` with
`rad = math.radians(angle)`. -/
noncomputable def special_velocity (angle : ℤ) : ℝ × ℝ :=
  (Real.sin ((angle : ℝ) * Real.pi / 180) * 420,
   -Real.cos ((angle : ℝ) * Real.pi / 180) * 420)

/-- entities.py: `Player.use_special` — requires a full special gauge; resets
special to 0, pays energy (floored at 0) and heat, and emits the 7-bullet fan
over `range(-45, 50, 15)` degrees. -/
noncomputable def Player.use_special (p : Player) : List Bullet × Player :=
  if p.stats.special < p.stats.max_special then ([], p)
  else
    let stats :=
      { p.stats with
          special := 0
          energy := pymax 0 (p.stats.energy - 40)
          heat := pymin (p.stats.heat + 40) p.stats.max_heat }
    let bullets := (pyRange (-45) 50 15).map (fun angle =>
      { position := ((p.position.1 : ℝ), (p.position.2 : ℝ)),
        velocity := special_velocity angle, damage := 18, radius := 6,
        friendly := true : Bullet })
    (bullets, { p with stats := stats })

/-- entities.py: `class Enemy` (its `__init__` fields; the `type` attribute
is the literal string "boss"). -/
structure Enemy where
  position : ℚ × ℚ
  hp : ℚ
  speed : ℚ
  radius : ℤ
  shoot_timer : ℚ
  type : String

/-- entities.py: `Enemy.__init__(position, hp, speed)` (speed defaults to 50
at the Python call sites that omit it). -/
def Enemy.init (position : ℚ × ℚ) (hp speed : ℚ) : Enemy :=
  { position := position, hp := hp, speed := speed, radius := 20,
    shoot_timer := 0, type := "boss" }

/-- entities.py: `Enemy.take_damage(dmg)` (`self.hp = max(0, self.hp - dmg)`). -/
def Enemy.take_damage (e : Enemy) (dmg : ℚ) : Enemy :=
  { e with hp := pymax 0 (e.hp - dmg) }

/-- entities.py: `Enemy.alive` (`return self.hp > 0`). -/
def Enemy.alive (e : Enemy) : Bool := decide (e.hp > 0)

/- ===================== operation sequences over Player ===================== -/

/-- One call on a `Player`, as performed by the simulation loop: the five
action/update methods and damage application. -/
inductive PlayerOp where
  | update (dt : ℚ)
  | shoot
  | strong_attack
  | step (direction : ℚ × ℚ)
  | use_special
  | take_damage (dmg : ℚ)

/-- The argument constraints under which the game invokes the methods:
elapsed time is non-negative and applied damage is non-negative (every
bullet damage in the source is a positive constant). -/
def PlayerOp.valid : PlayerOp → Prop
  | PlayerOp.update dt => 0 ≤ dt
  | PlayerOp.take_damage dmg => 0 ≤ dmg
  | _ => True

instance (op : PlayerOp) : Decidable op.valid := by
  cases op <;> simp only [PlayerOp.valid] <;> infer_instance

/-- Apply one operation to the player state (bullet output discarded). -/
noncomputable def Player.apply_op (p : Player) : PlayerOp → Player
  | PlayerOp.update dt => p.update dt
  | PlayerOp.shoot => p.shoot.2
  | PlayerOp.strong_attack => p.strong_attack.2
  | PlayerOp.step d => p.step d
  | PlayerOp.use_special => p.use_special.2
  | PlayerOp.take_damage dmg => p.take_damage dmg

/-- Apply a sequence of operations from left to right. -/
noncomputable def Player.apply_ops (p : Player) (ops : List PlayerOp) : Player :=
  ops.foldl Player.apply_op p

/-- Every resource pool of the stats record lies within [0, its max]. -/
def PlayerStats.in_range (s : PlayerStats) : Prop :=
  0 ≤ s.hp ∧ s.hp ≤ s.max_hp ∧
  0 ≤ s.energy ∧ s.energy ≤ s.max_energy ∧
  0 ≤ s.heat ∧ s.heat ≤ s.max_heat ∧
  0 ≤ s.special ∧ s.special ≤ s.max_special

instance (s : PlayerStats) : Decidable s.in_range := by
  unfold PlayerStats.in_range
  infer_instance

/- ===================== concrete inputs used by witnesses ===================== -/

/-- game.py: the enemy the session creates (`Enemy((WIDTH / 2, 120), hp=1200)`). -/
def boss : Enemy := Enemy.init (320, 120) 1200 50

/-- game.py: the player the session creates (`Player((WIDTH / 2, HEIGHT - 80))`). -/
def session_player : Player := Player.init (320, 400)

/-- A player whose energy has been drained to 10 (Scenario 3). -/
def drained_player : Player :=
  { session_player with stats := { PlayerStats.init with energy := 10 } }

/-- A player whose special gauge is full (Scenario 5). -/
def charged_player : Player :=
  { session_player with stats := { PlayerStats.init with special := 100 } }

/-- A context with nothing near the player and the step cooldown running. -/
def becalmed_context : AIContext :=
  { threat_level := 0, target_score := 0, distance := 0, energy := 100, heat := 0,
    special := 0, hp_ratio := 1, sync := 0.35, cooldown_ready := false }

/-- A controller whose standing bias pushes every action far below zero. -/
def zeroing_controller : AIController :=
  { personality := Personality.AGGRESSIVE, order_bias := ⟨fun _ => -1000⟩,
    base_delay := 0.35 }

/-- The Scenario 1 context: high threat, everything else neutral, step ready. -/
def high_threat_context : AIContext :=
  { threat_level := 0.9, target_score := 0, distance := 0, energy := 100, heat := 0,
    special := 0, hp_ratio := 1, sync := 0.35, cooldown_ready := true }

/-- The Scenario 1 controller: Prudent personality, balanced (all-zero) bias. -/
def prudent_controller : AIController :=
  { personality := Personality.PRUDENT, order_bias := OrderBias.default,
    base_delay := 0.35 }

/-- A sample call sequence exercising every player operation. -/
def sample_ops : List PlayerOp :=
  [PlayerOp.update 1, PlayerOp.shoot, PlayerOp.strong_attack,
   PlayerOp.step (1, 0), PlayerOp.use_special, PlayerOp.take_damage 12]

/- ===================== helper lemmas ===================== -/

theorem bias_from_instruction_congr (s t : String) (h : str_lower s = str_lower t) :
    bias_from_instruction s = bias_from_instruction t := by
  unfold bias_from_instruction
  rw [h]

theorem is_ok_false_of_not_mem (name : String)
    (h : str_lower name ∉ instruction_vocabulary) :
    is_ok (bias_from_instruction name) = false := by
  have hv : ¬ (str_lower name = "balanced") ∧ ¬ (str_lower name = "aggressive") ∧
      ¬ (str_lower name = "defensive") ∧ ¬ (str_lower name = "focus") ∧
      ¬ (str_lower name = "special") := by
    simpa [instruction_vocabulary, not_or] using h
  obtain ⟨hb, ha, hd, hf, hs⟩ := hv
  simp only [bias_from_instruction, is_ok, if_neg ha, if_neg hd, if_neg hf, if_neg hs, if_neg hb]

theorem apply_op_preserves_in_range (p : Player) (op : PlayerOp)
    (hv : op.valid) (h : p.stats.in_range) : (p.apply_op op).stats.in_range := by
  obtain ⟨h1, h2, h3, h4, h5, h6, h7, h8⟩ := h
  cases op with
  | update dt =>
      have hdt : (0:ℚ) ≤ dt := hv
      show (p.update dt).stats.in_range
      unfold Player.update PlayerStats.in_range
      dsimp only
      refine ⟨h1, h2, ?_, ?_, ?_, ?_, ?_, ?_⟩
      · rw [pymin_eq_min]; exact le_min (by linarith) (by linarith)
      · rw [pymin_eq_min]; exact min_le_right _ _
      · rw [pymax_eq_max]; exact le_max_left _ _
      · rw [pymax_eq_max]; exact max_le (by linarith) (by linarith)
      · rw [pymin_eq_min]; exact le_min (by linarith) (by linarith)
      · rw [pymin_eq_min]; exact min_le_right _ _
  | shoot =>
      show p.shoot.2.stats.in_range
      unfold Player.shoot
      by_cases hc : p.can_shoot = true
      · rw [if_neg (not_not_intro hc)]
        unfold PlayerStats.in_range
        dsimp only
        refine ⟨h1, h2, ?_, ?_, ?_, ?_, h7, h8⟩
        · rw [pymin_eq_min]; exact le_min (by linarith) (by linarith)
        · rw [pymin_eq_min]; exact min_le_right _ _
        · rw [pymin_eq_min]; exact le_min (by linarith) (by linarith)
        · rw [pymin_eq_min]; exact min_le_right _ _
      · rw [if_pos hc]
        exact ⟨h1, h2, h3, h4, h5, h6, h7, h8⟩
  | strong_attack =>
      show p.strong_attack.2.stats.in_range
      unfold Player.strong_attack
      by_cases hc : p.can_strong = true
      · have h35 : p.strong_timer ≤ 0 ∧ p.stats.energy ≥ 35 := by
          unfold Player.can_strong at hc
          exact of_decide_eq_true hc
        rw [if_neg (not_not_intro hc)]
        unfold PlayerStats.in_range
        dsimp only
        refine ⟨h1, h2, by linarith [h35.2], by linarith, ?_, ?_, h7, h8⟩
        · rw [pymin_eq_min]; exact le_min (by linarith) (by linarith)
        · rw [pymin_eq_min]; exact min_le_right _ _
      · rw [if_pos hc]
        exact ⟨h1, h2, h3, h4, h5, h6, h7, h8⟩
  | step direction =>
      show (p.step direction).stats.in_range
      unfold Player.step
      by_cases hc : p.can_step = true
      · rw [if_neg (not_not_intro hc)]
        exact ⟨h1, h2, h3, h4, h5, h6, h7, h8⟩
      · rw [if_pos hc]
        exact ⟨h1, h2, h3, h4, h5, h6, h7, h8⟩
  | use_special =>
      show p.use_special.2.stats.in_range
      unfold Player.use_special
      by_cases hc : p.stats.special < p.stats.max_special
      · rw [if_pos hc]
        exact ⟨h1, h2, h3, h4, h5, h6, h7, h8⟩
      · rw [if_neg hc]
        unfold PlayerStats.in_range
        dsimp only
        refine ⟨h1, h2, ?_, ?_, ?_, ?_, le_refl 0, by linarith⟩
        · rw [pymax_eq_max]; exact le_max_left _ _
        · rw [pymax_eq_max]; exact max_le (by linarith) (by linarith)
        · rw [pymin_eq_min]; exact le_min (by linarith) (by linarith)
        · rw [pymin_eq_min]; exact min_le_right _ _
  | take_damage dmg =>
      have hdmg : (0:ℚ) ≤ dmg := hv
      show (p.take_damage dmg).stats.in_range
      unfold Player.take_damage
      by_cases hc : p.invincible > 0
      · rw [if_pos hc]
        exact ⟨h1, h2, h3, h4, h5, h6, h7, h8⟩
      · rw [if_neg hc]
        unfold PlayerStats.in_range
        dsimp only
        refine ⟨?_, ?_, h3, h4, h5, h6, h7, h8⟩
        · rw [pymax_eq_max]; exact le_max_left _ _
        · rw [pymax_eq_max]; exact max_le (by linarith) (by linarith)

theorem init_stats_in_range (position : ℚ × ℚ) :
    (Player.init position).stats.in_range := by
  show PlayerStats.init.in_range
  decide

theorem apply_ops_preserves_in_range (ops : List PlayerOp) (p : Player)
    (h : p.stats.in_range) (hv : ∀ op ∈ ops, op.valid) :
    (p.apply_ops ops).stats.in_range := by
  induction ops generalizing p with
  | nil => exact h
  | cons op rest ih =>
      exact ih (p.apply_op op)
        (apply_op_preserves_in_range p op (hv op (List.mem_cons_self op rest)) h)
        (fun o ho => hv o (List.mem_cons_of_mem op ho))

/- ===================== claim theorems ===================== -/

/-- C1 counterexample: with the boss created at hp 1200, fifty hits of 22
leave hp 100, but the 51st hit does NOT bring hp to 0 nor make `alive`
false (100 - 22 = 78 > 0), contrary to the claim. -/
theorem enemy_51_hits_counterexample :
    ((fun e => Enemy.take_damage e 22)^[50] boss).hp = 100 ∧
    ¬ ((((fun e => Enemy.take_damage e 22)^[51] boss).hp = 0) ∧
       (((fun e => Enemy.take_damage e 22)^[51] boss).alive = false)) := by
  decide

/-- C1 (amended): for an Enemy constructed with hp 1200, fifty applications
of `take_damage(22)` yield hp 100, and the 51st hit yields hp 78 with
`alive()` still true (hp first reaches 0 on the 55th hit). -/
theorem enemy_51_hits_amended :
    ((fun e => Enemy.take_damage e 22)^[50] boss).hp = 100 ∧
    ((fun e => Enemy.take_damage e 22)^[51] boss).hp = 78 ∧
    ((fun e => Enemy.take_damage e 22)^[51] boss).alive = true := by
  decide

/-- C2 counterexample: the "focus" instruction bias gives StrongAttack a
non-zero (+10) weight delta, contrary to the claim that NormalShot is the
only non-zero entry. -/
theorem focus_bias_counterexample :
    is_ok (bias_from_instruction "focus") = true ∧
    bias_values (bias_from_instruction "focus") Action.STRONG_ATTACK ≠ 0 := by
  decide

/-- C2 (amended): the "focus" instruction maps to the bias whose non-zero
entries are exactly NormalShot:+10 and StrongAttack:+10, with weight delta 0
for every other action. -/
theorem focus_bias_amended :
    is_ok (bias_from_instruction "focus") = true ∧
    ∀ a : Action, bias_values (bias_from_instruction "focus") a =
      (if a = Action.NORMAL_SHOT then 10 else if a = Action.STRONG_ATTACK then 10 else 0) := by
  refine ⟨by decide, ?_⟩
  intro a
  cases a <;> decide

/-- C3: starting from the initial `PlayerStats`, every pool value (hp,
energy, heat, special) stays within [0, its max] after every sequence of
player operations — update with non-negative dt, shoot, strong_attack,
step, use_special, take_damage with non-negative damage. Arbitrary
sequences are quantified, so every intermediate state (a prefix's result)
is covered. -/
theorem player_pools_stay_in_range (position : ℚ × ℚ) (ops : List PlayerOp)
    (hv : ∀ op ∈ ops, op.valid) :
    ((Player.init position).apply_ops ops).stats.in_range :=
  apply_ops_preserves_in_range ops (Player.init position) (init_stats_in_range position) hv

theorem player_pools_stay_in_range_witness :
    (∀ op ∈ sample_ops, op.valid) ∧
    ((Player.init (320, 400)).apply_ops sample_ops).stats.in_range :=
  ⟨by decide, player_pools_stay_in_range (320, 400) sample_ops (by decide)⟩

/-- C4: for every controller state, context and random outcomes, `think`
computes the delay as base_delay * (1 - clamp(sync, 0, 0.9)) plus the
jitter (an outcome of uniform(-0.08, 0.08)), floored at 0.05; in
particular the returned delay is never below 0.05. -/
theorem think_delay_floor (c : AIController) (ctx : AIContext) (draw jitter : ℚ)
    (hj1 : -0.08 ≤ jitter) (hj2 : jitter ≤ 0.08) :
    (c.think ctx draw jitter).delay =
      pymax 0.05 (c.base_delay * (1 - clamp ctx.sync 0 0.9) + jitter) ∧
    0.05 ≤ (c.think ctx draw jitter).delay := by
  constructor
  · rfl
  · show (0.05 : ℚ) ≤ pymax 0.05 (c.base_delay * (1 - clamp ctx.sync 0 0.9) + jitter)
    rw [pymax_eq_max]
    exact le_max_left _ _

theorem think_delay_floor_witness :
    0.05 ≤ (AIController.init.think becalmed_context 0.4 0.03).delay :=
  (think_delay_floor AIController.init becalmed_context 0.4 0.03
    (by decide) (by decide)).2

/-- C5: whenever the final weight table computed inside `think` sums to 0
over the action enumeration, the weighted selection falls back to
KeepDistance, for every random draw (the draw is not even consulted). -/
theorem think_zero_total_keep_distance (c : AIController) (ctx : AIContext)
    (draw jitter : ℚ)
    (h : (action_order.map (c.think_weights ctx)).sum = 0) :
    (c.think ctx draw jitter).action = Action.KEEP_DISTANCE := by
  show weighted_choice (c.think_weights ctx) draw = Action.KEEP_DISTANCE
  simp only [weighted_choice, h]
  norm_num

theorem think_zero_total_keep_distance_witness :
    (action_order.map (zeroing_controller.think_weights becalmed_context)).sum = 0 ∧
    (zeroing_controller.think becalmed_context 0.4 0.03).action = Action.KEEP_DISTANCE :=
  ⟨by decide,
   think_zero_total_keep_distance zeroing_controller becalmed_context 0.4 0.03 (by decide)⟩

/-- C6 counterexample: "Balanced" is outside the fixed (lower-case)
vocabulary yet the lookup succeeds rather than failing, because
`bias_from_instruction` lowercases its argument before matching. -/
theorem unknown_instruction_counterexample :
    ("Balanced" : String) ∉ instruction_vocabulary ∧
    is_ok (bias_from_instruction "Balanced") = true := by
  decide

/-- C6 (amended): for every instruction name whose lowercased form is
outside the vocabulary {balanced, aggressive, defensive, focus, special},
the lookup fails with a rejection error rather than returning a bias. -/
theorem unknown_instruction_rejected (name : String)
    (h : str_lower name ∉ instruction_vocabulary) :
    is_ok (bias_from_instruction name) = false :=
  is_ok_false_of_not_mem name h

theorem unknown_instruction_rejected_witness :
    is_ok (bias_from_instruction "dodge") = false :=
  unknown_instruction_rejected "dodge" (by decide)

/-- C7: a player whose energy is 10 (below the 35 threshold of
`can_strong`) gets no projectiles from `strong_attack` and its entire
state — energy, heat, the strong-attack cooldown timer and everything
else — is returned unchanged. -/
theorem strong_attack_insufficient_energy (p : Player)
    (h : p.stats.energy = 10) :
    p.strong_attack = ([], p) := by
  have hc : ¬ (p.can_strong = true) := by
    unfold Player.can_strong
    simp only [decide_eq_true_eq]
    rintro ⟨-, h35⟩
    rw [h] at h35
    norm_num at h35
  unfold Player.strong_attack
  rw [if_pos hc]

theorem strong_attack_insufficient_energy_witness :
    drained_player.stats.energy = 10 ∧
    drained_player.strong_attack = ([], drained_player) :=
  ⟨by decide, strong_attack_insufficient_energy drained_player (by decide)⟩

/-- C8: for a context with threat_level 0.9, cooldown_ready true and all
other threshold fields neutral (energy at least 20, heat at most 70,
hp_ratio at least 0.3, special below 100), personality Prudent and the
all-zero bias, the final weight table inside `think` gives Evade and Step
strictly more than their base-table values, and Step is not forced to 0. -/
theorem prudent_high_threat_boosts (ctx : AIContext) (b : ℚ)
    (ht : ctx.threat_level = 0.9) (hcd : ctx.cooldown_ready = true)
    (he : 20 ≤ ctx.energy) (hh : ctx.heat ≤ 70)
    (hhp : 0.3 ≤ ctx.hp_ratio) (hs : ctx.special < 100) :
    BASE_WEIGHTS Action.EVADE <
      AIController.think_weights ⟨Personality.PRUDENT, OrderBias.default, b⟩ ctx Action.EVADE ∧
    BASE_WEIGHTS Action.STEP <
      AIController.think_weights ⟨Personality.PRUDENT, OrderBias.default, b⟩ ctx Action.STEP ∧
    AIController.think_weights ⟨Personality.PRUDENT, OrderBias.default, b⟩ ctx Action.STEP ≠ 0 := by
  have h07 : ctx.threat_level > 0.7 := by rw [ht]; norm_num
  have hE : ¬ (ctx.energy < 20) := not_lt.mpr he
  have hH : ¬ (ctx.heat > 70) := not_lt.mpr hh
  have hHP : ¬ (ctx.hp_ratio < 0.3) := not_lt.mpr hhp
  have hS : ¬ (ctx.special ≥ 100) := not_le.mpr hs
  refine ⟨?_, ?_, ?_⟩ <;>
    simp only [AIController.think_weights, BASE_WEIGHTS, OrderBias.default, upd,
      h07, hE, hH, hHP, hS, hcd, if_true, if_false] <;>
    decide

theorem prudent_high_threat_boosts_witness :
    BASE_WEIGHTS Action.EVADE <
      prudent_controller.think_weights high_threat_context Action.EVADE ∧
    BASE_WEIGHTS Action.STEP <
      prudent_controller.think_weights high_threat_context Action.STEP ∧
    prudent_controller.think_weights high_threat_context Action.STEP ≠ 0 :=
  prudent_high_threat_boosts high_threat_context 0.35 (by decide) (by decide)
    (by decide) (by decide) (by decide) (by decide)

/-- C9: with the special gauge at its max, `use_special` emits exactly 7
projectiles whose velocities are the fan over the angles -45°..+45° in 15°
increments (Python `range(-45, 50, 15)`), and resets the gauge to 0; with
the gauge below max it emits nothing and leaves the player unchanged. -/
theorem use_special_full_fan (p : Player) :
    (p.stats.special = p.stats.max_special →
      p.use_special.1.length = 7 ∧
      p.use_special.1.map Bullet.velocity = (pyRange (-45) 50 15).map special_velocity ∧
      pyRange (-45) 50 15 = [-45, -30, -15, 0, 15, 30, 45] ∧
      p.use_special.2.stats.special = 0) ∧
    (p.stats.special < p.stats.max_special → p.use_special = ([], p)) := by
  constructor
  · intro h
    unfold Player.use_special
    rw [if_neg (not_lt.mpr (le_of_eq h.symm))]
    refine ⟨?_, ?_, by decide, rfl⟩
    · dsimp only
      rw [List.length_map]
      decide
    · dsimp only
      rw [List.map_map]
      rfl
  · intro h
    unfold Player.use_special
    rw [if_pos h]

theorem use_special_full_fan_witness :
    charged_player.use_special.1.length = 7 ∧
    session_player.use_special = ([], session_player) :=
  ⟨((use_special_full_fan charged_player).1 (by decide)).1,
   (use_special_full_fan session_player).2 (by decide)⟩

/-- C10: `bias_from_instruction` lowercases its argument before matching:
for every name whose lowercased form is in the vocabulary the lookup
succeeds and returns the same OrderBias as the all-lowercase spelling, and
only names whose lowercased form is outside the vocabulary are rejected. -/
theorem bias_lookup_lowercases (name : String) :
    (str_lower name ∈ instruction_vocabulary →
      is_ok (bias_from_instruction name) = true ∧
      bias_from_instruction name = bias_from_instruction (str_lower name)) ∧
    (str_lower name ∉ instruction_vocabulary →
      is_ok (bias_from_instruction name) = false) := by
  constructor
  · intro h
    have hw : str_lower name = "balanced" ∨ str_lower name = "aggressive" ∨
        str_lower name = "defensive" ∨ str_lower name = "focus" ∨
        str_lower name = "special" := by
      simpa [instruction_vocabulary] using h
    have hcongr : bias_from_instruction name = bias_from_instruction (str_lower name) := by
      rcases hw with hw | hw | hw | hw | hw <;>
        exact bias_from_instruction_congr name (str_lower name) (by rw [hw]; decide)
    refine ⟨?_, hcongr⟩
    rw [hcongr]
    rcases hw with hw | hw | hw | hw | hw <;> rw [hw] <;> decide
  · exact is_ok_false_of_not_mem name

theorem bias_lookup_lowercases_witness :
    is_ok (bias_from_instruction "AGGRESSIVE") = true ∧
    bias_from_instruction "AGGRESSIVE" = bias_from_instruction (str_lower "AGGRESSIVE") :=
  (bias_lookup_lowercases "AGGRESSIVE").1 (by decide)

end AIShooting
